import Mathlib

/-!
Verification of the fbref scouting core (`analysis/player_scout.py`).

Tables are modelled as lists of rows; each pandas column used by the core is a
field of the row structure.  Numeric columns are rationals (exact arithmetic
standing in for floats); `x / 0 = 0` in this model where pandas would produce
a non-finite value.  `Series.quantile(q)` (linear interpolation, the pandas
default) is modelled by `quantileLinear`, and `sort_values(col,
ascending=False)` by `sortValuesDesc`, a deterministic descending sort.  The
source never passes `kind=`, so pandas sorts with its default
`kind='quicksort'` (numpy introsort), for which pandas documents no stability
guarantee — only `'mergesort'`/`'stable'` are stable kinds.  A functional
model must fix some order for tied keys (here: an insertion sort), so the
relative order of equal-key rows in `sortValuesDesc` is a modelling artefact;
only facts that hold for every sort kind — sortedness of the result, its row
multiset (permutation), membership and row counts — are claimed of the
program.
-/

/-- Sort a list of rationals ascending (the order statistics underlying
`Series.quantile`). -/
def sortRat (s : List ℚ) : List ℚ :=
  List.insertionSort (· ≤ ·) s

/-- Linear interpolation of a (sorted) list at fractional position `p`:
`l[⌊p⌋] + (l[⌊p⌋+1] - l[⌊p⌋]) * (p - ⌊p⌋)`, the numpy/pandas "linear"
interpolation between order statistics. -/
def interpAt (l : List ℚ) (p : ℚ) : ℚ :=
  if (Int.floor p).toNat + 1 < l.length then
    l.getD (Int.floor p).toNat 0 +
      (l.getD ((Int.floor p).toNat + 1) 0 - l.getD (Int.floor p).toNat 0) *
        (p - ((Int.floor p).toNat : ℚ))
  else l.getD (Int.floor p).toNat 0

/-- `Series.quantile(q)` with the default linear interpolation: position
`q * (n - 1)` in the sorted values. -/
def quantileLinear (s : List ℚ) (q : ℚ) : ℚ :=
  if s.length = 0 then 0
  else interpAt (sortRat s) (q * ((s.length : ℚ) - 1))

/-- `normalize_metric`: robust rescaling `(series - q05) / (q95 - q05)` with
the 5th and 95th percentiles as the effective min/max (source lines 7-11). -/
def normalize_metric (s : List ℚ) : List ℚ :=
  s.map (fun v =>
    (v - quantileLinear s (1 / 20)) /
      (quantileLinear s (19 / 20) - quantileLinear s (1 / 20)))

/-- Elementwise form of `normalize_metric` against a fixed reference column:
used to build enriched rows whose normalized fields come from a whole-column
normalization. -/
def normAgainst (col : List ℚ) (v : ℚ) : ℚ :=
  (v - quantileLinear col (1 / 20)) /
    (quantileLinear col (19 / 20) - quantileLinear col (1 / 20))

theorem normalize_metric_eq_map (s : List ℚ) :
    normalize_metric s = s.map (normAgainst s) := rfl

/-- Descending comparison on a rational sort key. -/
def scoreGE {α : Type} (key : α → ℚ) : α → α → Prop :=
  fun a b => key b ≤ key a

instance {α : Type} (key : α → ℚ) : DecidableRel (scoreGE key) :=
  fun a b => inferInstanceAs (Decidable (key b ≤ key a))

instance {α : Type} (key : α → ℚ) : IsTotal α (scoreGE key) :=
  ⟨fun a b => le_total (key b) (key a)⟩

instance {α : Type} (key : α → ℚ) : IsTrans α (scoreGE key) :=
  ⟨fun _ _ _ h1 h2 => le_trans h2 h1⟩

/-- `DataFrame.sort_values(col, ascending=False)` with the source's default
`kind='quicksort'`: a descending sort on the key.  The program guarantees
only a descending reordering of the rows — pandas documents no stability for
the default quicksort kind — so the insertion sort used here fixes the order
of tied keys purely to make the model a function; no theorem about the
program may rely on the model's tie order. -/
def sortValuesDesc {α : Type} (key : α → ℚ) (l : List α) : List α :=
  List.insertionSort (scoreGE key) l

theorem sortValuesDesc_perm {α : Type} (key : α → ℚ) (l : List α) :
    (sortValuesDesc key l).Perm l :=
  List.perm_insertionSort (scoreGE key) l

theorem sortValuesDesc_sorted {α : Type} (key : α → ℚ) (l : List α) :
    (sortValuesDesc key l).Sorted (scoreGE key) :=
  List.sorted_insertionSort (scoreGE key) l

theorem mem_sortValuesDesc {α : Type} (key : α → ℚ) (l : List α) (a : α) :
    a ∈ sortValuesDesc key l ↔ a ∈ l :=
  (sortValuesDesc_perm key l).mem_iff

theorem floorToNat_cast (p : ℚ) (hp : 0 ≤ p) :
    ((Int.floor p).toNat : ℚ) = ((Int.floor p : ℤ) : ℚ) := by
  have h0 : 0 ≤ Int.floor p := Int.floor_nonneg.mpr hp
  exact_mod_cast congrArg (fun z : ℤ => (z : ℚ)) (Int.toNat_of_nonneg h0)

theorem floorToNat_le (p : ℚ) (hp : 0 ≤ p) : ((Int.floor p).toNat : ℚ) ≤ p := by
  rw [floorToNat_cast p hp]
  exact Int.floor_le p

theorem lt_floorToNat_add_one (p : ℚ) (hp : 0 ≤ p) :
    p < ((Int.floor p).toNat : ℚ) + 1 := by
  rw [floorToNat_cast p hp]
  exact Int.lt_floor_add_one p

theorem floorToNat_lt_of_le (p : ℚ) (n : ℕ) (hp : 0 ≤ p) (hpn : p ≤ (n : ℚ) - 1) :
    (Int.floor p).toNat < n := by
  have h1 : ((Int.floor p).toNat : ℚ) ≤ (n : ℚ) - 1 := le_trans (floorToNat_le p hp) hpn
  have h2 : ((Int.floor p).toNat : ℚ) + 1 ≤ (n : ℚ) := by linarith
  have h3 : (Int.floor p).toNat + 1 ≤ n := by exact_mod_cast h2
  omega

theorem sorted_getD_mono (l : List ℚ) (hs : l.Sorted (· ≤ ·)) (i j : ℕ)
    (hij : i ≤ j) (hj : j < l.length) : l.getD i 0 ≤ l.getD j 0 := by
  have hi : i < l.length := Nat.lt_of_le_of_lt hij hj
  rw [List.getD_eq_getElem l 0 hi, List.getD_eq_getElem l 0 hj]
  exact hs.rel_get_of_le (Fin.mk_le_mk.mpr hij)

theorem getD_le_interpAt (l : List ℚ) (hs : l.Sorted (· ≤ ·)) (p : ℚ) (hp : 0 ≤ p) :
    l.getD (Int.floor p).toNat 0 ≤ interpAt l p := by
  unfold interpAt
  by_cases h : (Int.floor p).toNat + 1 < l.length
  · rw [if_pos h]
    have hd : 0 ≤ l.getD ((Int.floor p).toNat + 1) 0 - l.getD (Int.floor p).toNat 0 :=
      sub_nonneg.mpr (sorted_getD_mono l hs _ _ (Nat.le_succ _) h)
    have hf : 0 ≤ p - ((Int.floor p).toNat : ℚ) := sub_nonneg.mpr (floorToNat_le p hp)
    have := mul_nonneg hd hf
    linarith
  · rw [if_neg h]

theorem interpAt_le_getD_succ (l : List ℚ) (hs : l.Sorted (· ≤ ·)) (p : ℚ) (hp : 0 ≤ p)
    (h : (Int.floor p).toNat + 1 < l.length) :
    interpAt l p ≤ l.getD ((Int.floor p).toNat + 1) 0 := by
  unfold interpAt
  rw [if_pos h]
  have hd : 0 ≤ l.getD ((Int.floor p).toNat + 1) 0 - l.getD (Int.floor p).toNat 0 :=
    sub_nonneg.mpr (sorted_getD_mono l hs _ _ (Nat.le_succ _) h)
  have hf1 : p - ((Int.floor p).toNat : ℚ) ≤ 1 := by
    have := lt_floorToNat_add_one p hp
    linarith
  have h2 := mul_le_mul_of_nonneg_left hf1 hd
  have h3 : (l.getD ((Int.floor p).toNat + 1) 0 - l.getD (Int.floor p).toNat 0) * 1 =
      l.getD ((Int.floor p).toNat + 1) 0 - l.getD (Int.floor p).toNat 0 := mul_one _
  linarith

theorem interpAt_mono (l : List ℚ) (hs : l.Sorted (· ≤ ·)) (p1 p2 : ℚ)
    (hp0 : 0 ≤ p1) (h12 : p1 ≤ p2) (hp2 : p2 ≤ (l.length : ℚ) - 1) :
    interpAt l p1 ≤ interpAt l p2 := by
  have hp20 : 0 ≤ p2 := le_trans hp0 h12
  have hi2 : (Int.floor p2).toNat < l.length := floorToNat_lt_of_le p2 l.length hp20 hp2
  have hfl : (Int.floor p1).toNat ≤ (Int.floor p2).toNat :=
    Int.toNat_le_toNat (Int.floor_le_floor h12)
  rcases Nat.lt_or_ge (Int.floor p1).toNat (Int.floor p2).toNat with hlt | hge
  · have hsucc : (Int.floor p1).toNat + 1 < l.length := Nat.lt_of_le_of_lt hlt hi2
    calc interpAt l p1 ≤ l.getD ((Int.floor p1).toNat + 1) 0 :=
          interpAt_le_getD_succ l hs p1 hp0 hsucc
      _ ≤ l.getD (Int.floor p2).toNat 0 := sorted_getD_mono l hs _ _ hlt hi2
      _ ≤ interpAt l p2 := getD_le_interpAt l hs p2 hp20
  · have heq : (Int.floor p1).toNat = (Int.floor p2).toNat := le_antisymm hfl hge
    unfold interpAt
    rw [heq]
    by_cases h : (Int.floor p2).toNat + 1 < l.length
    · rw [if_pos h, if_pos h]
      have hd : 0 ≤ l.getD ((Int.floor p2).toNat + 1) 0 - l.getD (Int.floor p2).toNat 0 :=
        sub_nonneg.mpr (sorted_getD_mono l hs _ _ (Nat.le_succ _) h)
      have hmul := mul_le_mul_of_nonneg_left (sub_le_sub_right h12 ((Int.floor p2).toNat : ℚ)) hd
      linarith
    · rw [if_neg h, if_neg h]

theorem sortRat_sorted (s : List ℚ) : (sortRat s).Sorted (· ≤ ·) :=
  List.sorted_insertionSort _ s

theorem sortRat_length (s : List ℚ) : (sortRat s).length = s.length :=
  (List.perm_insertionSort _ s).length_eq

theorem quantile_le_quantile (s : List ℚ) (q1 q2 : ℚ) (h0 : 0 ≤ q1) (h12 : q1 ≤ q2)
    (h1 : q2 ≤ 1) : quantileLinear s q1 ≤ quantileLinear s q2 := by
  unfold quantileLinear
  by_cases hn : s.length = 0
  · rw [if_pos hn, if_pos hn]
  · rw [if_neg hn, if_neg hn]
    have hlen : 1 ≤ s.length := Nat.one_le_iff_ne_zero.mpr hn
    have hnn : (0 : ℚ) ≤ (s.length : ℚ) - 1 := by
      have hone : (1 : ℚ) ≤ (s.length : ℚ) := by exact_mod_cast hlen
      linarith
    apply interpAt_mono (sortRat s) (sortRat_sorted s)
    · exact mul_nonneg h0 hnn
    · exact mul_le_mul_of_nonneg_right h12 hnn
    · rw [sortRat_length]
      calc q2 * ((s.length : ℚ) - 1) ≤ 1 * ((s.length : ℚ) - 1) :=
            mul_le_mul_of_nonneg_right h1 hnn
        _ = (s.length : ℚ) - 1 := one_mul _

theorem q05_le_q95 (s : List ℚ) :
    quantileLinear s (1 / 20) ≤ quantileLinear s (19 / 20) :=
  quantile_le_quantile s (1 / 20) (19 / 20) (by norm_num) (by norm_num) (by norm_num)

/-- Row of the passing table consumed by `identify_playmakers`: identity key
`Player` plus the columns the scorer reads (`90s`, `PrgP`, `KP`, `Ast`,
`total_Cmp%`). -/
structure PassRow where
  player : String
  n90s : ℚ
  prgP : ℚ
  kp : ℚ
  ast : ℚ
  totalCmpPct : ℚ
deriving DecidableEq, Inhabited

/-- Row of the shooting table consumed by `find_clinical_forwards`. -/
structure ShootRow where
  player : String
  n90s : ℚ
  sh : ℚ
  gls : ℚ
  xg : ℚ
  sotPct : ℚ
deriving DecidableEq, Inhabited

/-- Row of the possession table consumed by `analyze_progressive_midfielders`,
carrying the identity columns the Composer later projects. -/
structure PossRow where
  player : String
  squad : String
  age : ℤ
  pos : String
  n90s : ℚ
  prgDist : ℚ
  prgC : ℚ
  oneThird : ℚ
  prgR : ℚ
deriving DecidableEq, Inhabited

/-- Row of the defensive table consumed by `identify_pressing_midfielders`. -/
structure DefRow where
  player : String
  pos : String
  n90s : ℚ
  tkl : ℚ
  ints : ℚ
  att3rd : ℚ
  tklPct : ℚ
deriving DecidableEq, Inhabited

/-- The playmaker weight mapping (source lines 43-48), in dict insertion
order. -/
def playmaker_weights : List (String × ℚ) :=
  [("PrgP_90_norm", 35 / 100), ("KP_90_norm", 30 / 100),
   ("total_Cmp%_norm", 20 / 100), ("Ast_90_norm", 15 / 100)]

/-- The clinical-forward weight mapping (source lines 90-95). -/
def forward_weights : List (String × ℚ) :=
  [("conversion_rate_norm", 30 / 100), ("SoT%_norm", 25 / 100),
   ("xG_difference_norm", 25 / 100), ("Gls_90_norm", 20 / 100)]

/-- The progressive-midfielder weight mapping (source lines 126-131). -/
def progressive_weights : List (String × ℚ) :=
  [("PrgDist_norm", 35 / 100), ("PrgC_norm", 30 / 100),
   ("1/3_norm", 20 / 100), ("PrgR_norm", 15 / 100)]

/-- The pressing-midfielder weight mapping (source lines 163-168). -/
def pressing_weights : List (String × ℚ) :=
  [("Tkl_90_norm", 35 / 100), ("Int_90_norm", 30 / 100),
   ("Tkl%_norm", 20 / 100), ("Att3rd_90_norm", 15 / 100)]

/-- The composer weight mapping (source lines 213-217). -/
def complete_weights : List (String × ℚ) :=
  [("progression_score_norm", 40 / 100), ("pressing_score_norm", 30 / 100),
   ("playmaker_score_norm", 30 / 100)]

/-- `identify_playmakers` output row: the input columns plus the derived
per-90 columns, their normalizations and the composite score. -/
structure PlaymakerRow where
  base : PassRow
  prgP90 : ℚ
  kp90 : ℚ
  ast90 : ℚ
  prgP90Norm : ℚ
  kp90Norm : ℚ
  ast90Norm : ℚ
  totalCmpPctNorm : ℚ
  playmakerScore : ℚ
deriving DecidableEq, Inhabited

/-- One enriched playmaker row; the normalization columns are those of the
whole table `df` (column-wise `normalize_metric`). -/
def mkPlaymakerRow (df : List PassRow) (r : PassRow) : PlaymakerRow :=
  { base := r
    prgP90 := r.prgP / r.n90s
    kp90 := r.kp / r.n90s
    ast90 := r.ast / r.n90s
    prgP90Norm := normAgainst (df.map (fun a => a.prgP / a.n90s)) (r.prgP / r.n90s)
    kp90Norm := normAgainst (df.map (fun a => a.kp / a.n90s)) (r.kp / r.n90s)
    ast90Norm := normAgainst (df.map (fun a => a.ast / a.n90s)) (r.ast / r.n90s)
    totalCmpPctNorm := normAgainst (df.map (fun a => a.totalCmpPct)) r.totalCmpPct
    playmakerScore :=
      normAgainst (df.map (fun a => a.prgP / a.n90s)) (r.prgP / r.n90s) * (35 / 100) +
        normAgainst (df.map (fun a => a.kp / a.n90s)) (r.kp / r.n90s) * (30 / 100) +
        normAgainst (df.map (fun a => a.totalCmpPct)) r.totalCmpPct * (20 / 100) +
        normAgainst (df.map (fun a => a.ast / a.n90s)) (r.ast / r.n90s) * (15 / 100) }

/-- The enriched (pre-sort) playmaker table. -/
def playmakerEnrich (df : List PassRow) : List PlaymakerRow :=
  df.map (mkPlaymakerRow df)

/-- `identify_playmakers` (source lines 14-54): derive per-90 metrics,
normalize, weigh 0.35/0.30/0.20/0.15, sort by `playmaker_score` descending. -/
def identify_playmakers (df : List PassRow) : List PlaymakerRow :=
  sortValuesDesc (fun r => r.playmakerScore) (playmakerEnrich df)

/-- `find_clinical_forwards` output row. -/
structure ClinicalRow where
  base : ShootRow
  sh90 : ℚ
  gls90 : ℚ
  conversionRate : ℚ
  xgDifference : ℚ
  conversionRateNorm : ℚ
  sotPctNorm : ℚ
  xgDifferenceNorm : ℚ
  gls90Norm : ℚ
  efficiencyScore : ℚ
deriving DecidableEq, Inhabited

/-- One enriched clinical-forward row over the already-filtered table `df`. -/
def mkClinicalRow (df : List ShootRow) (r : ShootRow) : ClinicalRow :=
  { base := r
    sh90 := r.sh / r.n90s
    gls90 := r.gls / r.n90s
    conversionRate := r.gls / r.sh
    xgDifference := r.gls - r.xg
    conversionRateNorm := normAgainst (df.map (fun a => a.gls / a.sh)) (r.gls / r.sh)
    sotPctNorm := normAgainst (df.map (fun a => a.sotPct)) r.sotPct
    xgDifferenceNorm := normAgainst (df.map (fun a => a.gls - a.xg)) (r.gls - r.xg)
    gls90Norm := normAgainst (df.map (fun a => a.gls / a.n90s)) (r.gls / r.n90s)
    efficiencyScore :=
      normAgainst (df.map (fun a => a.gls / a.sh)) (r.gls / r.sh) * (30 / 100) +
        normAgainst (df.map (fun a => a.sotPct)) r.sotPct * (25 / 100) +
        normAgainst (df.map (fun a => a.gls - a.xg)) (r.gls - r.xg) * (25 / 100) +
        normAgainst (df.map (fun a => a.gls / a.n90s)) (r.gls / r.n90s) * (20 / 100) }

/-- The shot-count filter of `find_clinical_forwards` (source line 73):
`shooting_df[shooting_df["Sh"] >= min_shots]`. -/
def shotFilter (min_shots : ℚ) (df : List ShootRow) : List ShootRow :=
  df.filter (fun r => decide (min_shots ≤ r.sh))

/-- The enriched (pre-sort) clinical-forward table. -/
def clinicalEnrich (min_shots : ℚ) (df : List ShootRow) : List ClinicalRow :=
  (shotFilter min_shots df).map (mkClinicalRow (shotFilter min_shots df))

/-- `find_clinical_forwards` (source lines 57-101): filter to `Sh >=
min_shots` (default 20), derive, normalize, weigh 0.30/0.25/0.25/0.20, sort by
`efficiency_score` descending. -/
def find_clinical_forwards (df : List ShootRow) (min_shots : ℚ) : List ClinicalRow :=
  sortValuesDesc (fun r => r.efficiencyScore) (clinicalEnrich min_shots df)

/-- `analyze_progressive_midfielders` output row. -/
structure ProgRow where
  base : PossRow
  prgDist90 : ℚ
  prgC90 : ℚ
  oneThird90 : ℚ
  prgR90 : ℚ
  prgDistNorm : ℚ
  prgCNorm : ℚ
  oneThirdNorm : ℚ
  prgRNorm : ℚ
  progressionScore : ℚ
deriving DecidableEq, Inhabited

/-- One enriched progressive-midfielder row. -/
def mkProgRow (df : List PossRow) (r : PossRow) : ProgRow :=
  { base := r
    prgDist90 := r.prgDist / r.n90s
    prgC90 := r.prgC / r.n90s
    oneThird90 := r.oneThird / r.n90s
    prgR90 := r.prgR / r.n90s
    prgDistNorm := normAgainst (df.map (fun a => a.prgDist / a.n90s)) (r.prgDist / r.n90s)
    prgCNorm := normAgainst (df.map (fun a => a.prgC / a.n90s)) (r.prgC / r.n90s)
    oneThirdNorm := normAgainst (df.map (fun a => a.oneThird / a.n90s)) (r.oneThird / r.n90s)
    prgRNorm := normAgainst (df.map (fun a => a.prgR / a.n90s)) (r.prgR / r.n90s)
    progressionScore :=
      normAgainst (df.map (fun a => a.prgDist / a.n90s)) (r.prgDist / r.n90s) * (35 / 100) +
        normAgainst (df.map (fun a => a.prgC / a.n90s)) (r.prgC / r.n90s) * (30 / 100) +
        normAgainst (df.map (fun a => a.oneThird / a.n90s)) (r.oneThird / r.n90s) * (20 / 100) +
        normAgainst (df.map (fun a => a.prgR / a.n90s)) (r.prgR / r.n90s) * (15 / 100) }

/-- The enriched (pre-sort) progressive-midfielder table. -/
def progressiveEnrich (df : List PossRow) : List ProgRow :=
  df.map (mkProgRow df)

/-- `analyze_progressive_midfielders` (source lines 104-137). -/
def analyze_progressive_midfielders (df : List PossRow) : List ProgRow :=
  sortValuesDesc (fun r => r.progressionScore) (progressiveEnrich df)

/-- Substring test of `Pos.str.contains("MF", na=False)` (source line 152):
the pattern "MF" has no regex metacharacters, so it is a plain substring
match. -/
def posContainsMF (p : String) : Bool :=
  decide (List.IsInfix (String.toList "MF") (String.toList p))

/-- `identify_pressing_midfielders` output row. -/
structure PressRow where
  base : DefRow
  tkl90 : ℚ
  int90 : ℚ
  att3rd90 : ℚ
  tkl90Norm : ℚ
  int90Norm : ℚ
  tklPctNorm : ℚ
  att3rd90Norm : ℚ
  pressingScore : ℚ
deriving DecidableEq, Inhabited

/-- One enriched pressing-midfielder row over the already-filtered table. -/
def mkPressRow (df : List DefRow) (r : DefRow) : PressRow :=
  { base := r
    tkl90 := r.tkl / r.n90s
    int90 := r.ints / r.n90s
    att3rd90 := r.att3rd / r.n90s
    tkl90Norm := normAgainst (df.map (fun a => a.tkl / a.n90s)) (r.tkl / r.n90s)
    int90Norm := normAgainst (df.map (fun a => a.ints / a.n90s)) (r.ints / r.n90s)
    tklPctNorm := normAgainst (df.map (fun a => a.tklPct)) r.tklPct
    att3rd90Norm := normAgainst (df.map (fun a => a.att3rd / a.n90s)) (r.att3rd / r.n90s)
    pressingScore :=
      normAgainst (df.map (fun a => a.tkl / a.n90s)) (r.tkl / r.n90s) * (35 / 100) +
        normAgainst (df.map (fun a => a.ints / a.n90s)) (r.ints / r.n90s) * (30 / 100) +
        normAgainst (df.map (fun a => a.tklPct)) r.tklPct * (20 / 100) +
        normAgainst (df.map (fun a => a.att3rd / a.n90s)) (r.att3rd / r.n90s) * (15 / 100) }

/-- The position filter of `identify_pressing_midfielders` (source lines
151-153). -/
def mfFilter (df : List DefRow) : List DefRow :=
  df.filter (fun r => posContainsMF r.pos)

/-- The enriched (pre-sort) pressing-midfielder table. -/
def pressingEnrich (df : List DefRow) : List PressRow :=
  (mfFilter df).map (mkPressRow (mfFilter df))

/-- `identify_pressing_midfielders` (source lines 140-174). -/
def identify_pressing_midfielders (df : List DefRow) : List PressRow :=
  sortValuesDesc (fun r => r.pressingScore) (pressingEnrich df)

/-- Row of the joined table built by `find_complete_midfielders`: identity
columns taken from the progressive table plus the three composite scores. -/
structure JoinedRow where
  player : String
  squad : String
  age : ℤ
  pos : String
  progressionScore : ℚ
  pressingScore : ℚ
  playmakerScore : ℚ
deriving DecidableEq, Inhabited

/-- The two inner merges on `Player` (source lines 200-208): pandas keeps the
left table's key order and, per left row, the matching right rows in right
order; unmatched rows on either side are dropped. -/
def composerJoined (prog : List ProgRow) (press : List PressRow)
    (play : List PlaymakerRow) : List JoinedRow :=
  prog.flatMap (fun p =>
    (press.filter (fun d => decide (d.base.player = p.base.player))).flatMap (fun d =>
      (play.filter (fun m => decide (m.base.player = p.base.player))).map (fun m =>
        { player := p.base.player
          squad := p.base.squad
          age := p.base.age
          pos := p.base.pos
          progressionScore := p.progressionScore
          pressingScore := d.pressingScore
          playmakerScore := m.playmakerScore })))

/-- `find_complete_midfielders` output row. -/
structure CompleteRow where
  base : JoinedRow
  progressionScoreNorm : ℚ
  pressingScoreNorm : ℚ
  playmakerScoreNorm : ℚ
  completeMidfielderScore : ℚ
deriving DecidableEq, Inhabited

/-- One enriched complete-midfielder row: the three composite score columns
are re-normalized over the joined table `joined`. -/
def mkCompleteRow (joined : List JoinedRow) (j : JoinedRow) : CompleteRow :=
  { base := j
    progressionScoreNorm :=
      normAgainst (joined.map (fun a => a.progressionScore)) j.progressionScore
    pressingScoreNorm :=
      normAgainst (joined.map (fun a => a.pressingScore)) j.pressingScore
    playmakerScoreNorm :=
      normAgainst (joined.map (fun a => a.playmakerScore)) j.playmakerScore
    completeMidfielderScore :=
      normAgainst (joined.map (fun a => a.progressionScore)) j.progressionScore * (40 / 100) +
        normAgainst (joined.map (fun a => a.pressingScore)) j.pressingScore * (30 / 100) +
        normAgainst (joined.map (fun a => a.playmakerScore)) j.playmakerScore * (30 / 100) }

/-- The enriched (pre-sort) complete-midfielder table. -/
def completeEnrich (joined : List JoinedRow) : List CompleteRow :=
  joined.map (mkCompleteRow joined)

/-- `find_complete_midfielders` (source lines 177-223): run the three
scorers, inner-join their outputs on `Player` starting from the progressive
table, re-normalize the three composite scores over the joined population,
weigh 0.40/0.30/0.30, and sort by `complete_midfielder_score` descending. -/
def find_complete_midfielders (passing : List PassRow) (possession : List PossRow)
    (defensive : List DefRow) : List CompleteRow :=
  sortValuesDesc (fun r => r.completeMidfielderScore)
    (completeEnrich (composerJoined (analyze_progressive_midfielders possession)
      (identify_pressing_midfielders defensive) (identify_playmakers passing)))

/-- C1: for every input list, `normalize_metric` returns elementwise
`(value - low) / (high - low)` with `low` the 5th and `high` the 95th
percentile computed by linear interpolation between order statistics, and it
never clamps: on `[0, 10]` the band is `[1/2, 19/2]` and the two outputs
`-1/18` and `19/18` fall outside `[0, 1]`. -/
theorem normalize_is_unclamped_percentile_rescale :
    (∀ s : List ℚ, normalize_metric s =
      s.map (fun v => (v - quantileLinear s (1 / 20)) /
        (quantileLinear s (19 / 20) - quantileLinear s (1 / 20)))) ∧
    quantileLinear [0, 10] (1 / 20) = 1 / 2 ∧
    quantileLinear [0, 10] (19 / 20) = 19 / 2 ∧
    normalize_metric [0, 10] = [-(1 / 18), 19 / 18] := by
  refine ⟨fun s => rfl, ?_, ?_, ?_⟩ <;> with_unfolding_all decide

/-- Modelled from the spec: sections 4.1 and 7 require a
`DegenerateMetricError` to be raised when the 5th and 95th percentiles
coincide; the repository defines no error type at all, so the erroring
contract is modelled here from the spec's words, for comparison with the
unchecked source `normalize_metric`. -/
def normalize_metric_checked (s : List ℚ) : Except String (List ℚ) :=
  if quantileLinear s (19 / 20) = quantileLinear s (1 / 20) then
    Except.error "DegenerateMetricError"
  else Except.ok (normalize_metric s)

/-- C3 counterexample: on the all-identical column `[5, 5, 5]` the
spec-modelled contract raises `DegenerateMetricError`, but the source
`normalize_metric` raises nothing and returns a full-length value (pandas
would return `NaN`s from the zero-width band; rational division by zero
returns the junk value `0` in this model). -/
theorem normalize_degenerate_counterexample :
    normalize_metric_checked [5, 5, 5] = Except.error "DegenerateMetricError" ∧
    normalize_metric [5, 5, 5] = [0, 0, 0] := by
  constructor
  · with_unfolding_all rfl
  · with_unfolding_all decide

/-- C3 amended: when the 5th and 95th percentiles coincide,
`normalize_metric` does not raise anything; it divides by the zero-width band
and returns a value for every input element (pandas non-finite, here the junk
value `0` of division by zero). -/
theorem normalize_degenerate_returns_zeros (s : List ℚ)
    (h : quantileLinear s (19 / 20) = quantileLinear s (1 / 20)) :
    normalize_metric s = List.replicate s.length 0 := by
  unfold normalize_metric
  rw [h, sub_self]
  simp

theorem normalize_degenerate_returns_zeros_witness :
    quantileLinear [5, 5, 5] (19 / 20) = quantileLinear [5, 5, 5] (1 / 20) ∧
    normalize_metric [5, 5, 5] = List.replicate 3 0 :=
  ⟨by with_unfolding_all decide,
   by simpa using normalize_degenerate_returns_zeros [5, 5, 5] (by with_unfolding_all decide)⟩

/-- C9: `normalize_metric` is monotone (strictly smaller inputs give
non-strictly smaller outputs at the corresponding positions, the denominator
being the non-negative width of the percentile band) and deterministic
(identical input lists give identical outputs). -/
theorem normalize_monotone_deterministic (s t : List ℚ) (i j : ℕ)
    (hi : i < s.length) (hj : j < s.length) (hlt : s.getD i 0 < s.getD j 0) :
    (normalize_metric s).getD i 0 ≤ (normalize_metric s).getD j 0 ∧
      (s = t → normalize_metric s = normalize_metric t) := by
  constructor
  · have hd : 0 ≤ quantileLinear s (19 / 20) - quantileLinear s (1 / 20) :=
      sub_nonneg.mpr (q05_le_q95 s)
    have hlen : (normalize_metric s).length = s.length := List.length_map _ _
    rw [List.getD_eq_getElem _ 0 (hlen.symm ▸ hi), List.getD_eq_getElem _ 0 (hlen.symm ▸ hj)]
    rw [List.getD_eq_getElem s 0 hi, List.getD_eq_getElem s 0 hj] at hlt
    simp only [normalize_metric, List.getElem_map]
    rcases eq_or_lt_of_le hd with heq | hpos
    · have hz : quantileLinear s (19 / 20) - quantileLinear s (1 / 20) = 0 := heq.symm
      simp only [hz, div_zero, le_refl]
    · exact (div_le_div_iff_of_pos_right hpos).mpr (by linarith)
  · intro h
    rw [h]

theorem normalize_monotone_deterministic_witness :
    ([0, 10] : List ℚ).getD 0 0 < ([0, 10] : List ℚ).getD 1 0 ∧
      (normalize_metric [0, 10]).getD 0 0 ≤ (normalize_metric [0, 10]).getD 1 0 :=
  ⟨by with_unfolding_all decide,
   (normalize_monotone_deterministic [0, 10] [0, 10] 0 1 (by decide) (by decide)
     (by with_unfolding_all decide)).1⟩

/-- C4: every weight mapping used by the four role scorers and the Composer
has only non-negative weights and sums exactly to 1 (hence within the 1e-6
tolerance). -/
theorem all_weights_nonneg_sum_one :
    (playmaker_weights.all (fun w => decide (0 ≤ w.2)) = true ∧
      (playmaker_weights.map Prod.snd).sum = 1 ∧
      |(playmaker_weights.map Prod.snd).sum - 1| ≤ 1 / 1000000) ∧
    (forward_weights.all (fun w => decide (0 ≤ w.2)) = true ∧
      (forward_weights.map Prod.snd).sum = 1 ∧
      |(forward_weights.map Prod.snd).sum - 1| ≤ 1 / 1000000) ∧
    (progressive_weights.all (fun w => decide (0 ≤ w.2)) = true ∧
      (progressive_weights.map Prod.snd).sum = 1 ∧
      |(progressive_weights.map Prod.snd).sum - 1| ≤ 1 / 1000000) ∧
    (pressing_weights.all (fun w => decide (0 ≤ w.2)) = true ∧
      (pressing_weights.map Prod.snd).sum = 1 ∧
      |(pressing_weights.map Prod.snd).sum - 1| ≤ 1 / 1000000) ∧
    (complete_weights.all (fun w => decide (0 ≤ w.2)) = true ∧
      (complete_weights.map Prod.snd).sum = 1 ∧
      |(complete_weights.map Prod.snd).sum - 1| ≤ 1 / 1000000) := by
  with_unfolding_all decide

/-- C10: the Playmaker and Progressive Midfielder scorers apply no row
filter: stripping the appended columns from their output yields exactly the
input rows, each exactly once (a permutation of the input). -/
theorem playmaker_progressive_preserve_rows :
    (∀ df : List PassRow,
      ((identify_playmakers df).map (fun r => r.base)).Perm df) ∧
    (∀ df : List PossRow,
      ((analyze_progressive_midfielders df).map (fun r => r.base)).Perm df) := by
  constructor
  · intro df
    have h1 : ((identify_playmakers df).map (fun r => r.base)).Perm
        ((playmakerEnrich df).map (fun r => r.base)) :=
      (sortValuesDesc_perm _ _).map _
    have h2 : (playmakerEnrich df).map (fun r => r.base) = df := by
      unfold playmakerEnrich
      rw [List.map_map]
      have hc : ((fun r : PlaymakerRow => r.base) ∘ mkPlaymakerRow df) = fun r => r := by
        funext r
        rfl
      rw [hc, List.map_id']
    rw [h2] at h1
    exact h1
  · intro df
    have h1 : ((analyze_progressive_midfielders df).map (fun r => r.base)).Perm
        ((progressiveEnrich df).map (fun r => r.base)) :=
      (sortValuesDesc_perm _ _).map _
    have h2 : (progressiveEnrich df).map (fun r => r.base) = df := by
      unfold progressiveEnrich
      rw [List.map_map]
      have hc : ((fun r : ProgRow => r.base) ∘ mkProgRow df) = fun r => r := by
        funext r
        rfl
      rw [hc, List.map_id']
    rw [h2] at h1
    exact h1

/-- Demo shooting table for the spec's Clinical Forward scenario: three
players with `Sh = [5, 25, 30]`. -/
def demoShoot : List ShootRow :=
  [{ player := "A", n90s := 10, sh := 5, gls := 2, xg := 3, sotPct := 40 },
   { player := "B", n90s := 10, sh := 25, gls := 8, xg := 6, sotPct := 50 },
   { player := "C", n90s := 10, sh := 30, gls := 10, xg := 9, sotPct := 45 }]

/-- C5: the Clinical Forward scorer keeps exactly the rows with
`Sh >= min_shots` (each exactly once; rows below the threshold never appear),
and on the spec scenario `Sh = [5, 25, 30]` with `min_shots = 20` the output
is exactly the two players B and C. -/
theorem clinical_forwards_shot_filter (df : List ShootRow) (min_shots : ℚ) :
    ((find_clinical_forwards df min_shots).map (fun r => r.base)).Perm
      (df.filter (fun r => decide (min_shots ≤ r.sh))) ∧
    ((find_clinical_forwards demoShoot 20).map (fun r => r.base.player)).Perm ["B", "C"] := by
  constructor
  · have h1 : ((find_clinical_forwards df min_shots).map (fun r => r.base)).Perm
        ((clinicalEnrich min_shots df).map (fun r => r.base)) :=
      (sortValuesDesc_perm _ _).map _
    have h2 : (clinicalEnrich min_shots df).map (fun r => r.base) =
        df.filter (fun r => decide (min_shots ≤ r.sh)) := by
      unfold clinicalEnrich shotFilter
      rw [List.map_map]
      have hc : ((fun r : ClinicalRow => r.base) ∘
          mkClinicalRow (df.filter (fun r => decide (min_shots ≤ r.sh)))) = fun r => r := by
        funext r
        rfl
      rw [hc, List.map_id']
    rw [h2] at h1
    exact h1
  · with_unfolding_all decide

/-- C6: the Pressing Midfielder scorer keeps exactly the rows whose `Pos`
contains the substring "MF" (so multi-position entries such as "MF,FW" match
while "FW" and "DF" do not); every other row never appears in the output. -/
theorem pressing_midfielders_pos_filter (df : List DefRow) :
    ((identify_pressing_midfielders df).map (fun r => r.base)).Perm
      (df.filter (fun r => posContainsMF r.pos)) ∧
    posContainsMF "MF,FW" = true ∧ posContainsMF "MF" = true ∧
    posContainsMF "FW" = false ∧ posContainsMF "DF" = false := by
  refine ⟨?_, by with_unfolding_all decide, by with_unfolding_all decide,
    by with_unfolding_all decide, by with_unfolding_all decide⟩
  have h1 : ((identify_pressing_midfielders df).map (fun r => r.base)).Perm
      ((pressingEnrich df).map (fun r => r.base)) :=
    (sortValuesDesc_perm _ _).map _
  have h2 : (pressingEnrich df).map (fun r => r.base) =
      df.filter (fun r => posContainsMF r.pos) := by
    unfold pressingEnrich mfFilter
    rw [List.map_map]
    have hc : ((fun r : PressRow => r.base) ∘
        mkPressRow (df.filter (fun r => posContainsMF r.pos))) = fun r => r := by
      funext r
      rfl
    rw [hc, List.map_id']
  rw [h2] at h1
  exact h1

theorem mem_composerJoined (prog : List ProgRow) (press : List PressRow)
    (play : List PlaymakerRow) (j : JoinedRow) :
    j ∈ composerJoined prog press play ↔
      ∃ p ∈ prog, ∃ d ∈ press, ∃ m ∈ play,
        d.base.player = p.base.player ∧ m.base.player = p.base.player ∧
        j = { player := p.base.player, squad := p.base.squad, age := p.base.age,
              pos := p.base.pos, progressionScore := p.progressionScore,
              pressingScore := d.pressingScore, playmakerScore := m.playmakerScore } := by
  unfold composerJoined
  simp only [List.mem_flatMap, List.mem_filter, List.mem_map, decide_eq_true_eq]
  constructor
  · rintro ⟨p, hp, d, ⟨hd, hdeq⟩, m, ⟨hm, hmeq⟩, rfl⟩
    exact ⟨p, hp, d, hd, m, hm, hdeq, hmeq, rfl⟩
  · rintro ⟨p, hp, d, hd, m, hm, hdeq, hmeq, rfl⟩
    exact ⟨p, hp, d, ⟨hd, hdeq⟩, m, ⟨hm, hmeq⟩, rfl⟩

theorem completeEnrich_norm_columns (J : List JoinedRow) :
    (completeEnrich J).map (fun r => r.progressionScoreNorm) =
        normalize_metric (J.map (fun a => a.progressionScore)) ∧
      (completeEnrich J).map (fun r => r.pressingScoreNorm) =
        normalize_metric (J.map (fun a => a.pressingScore)) ∧
      (completeEnrich J).map (fun r => r.playmakerScoreNorm) =
        normalize_metric (J.map (fun a => a.playmakerScore)) := by
  refine ⟨?_, ?_, ?_⟩ <;>
    (unfold completeEnrich
     rw [normalize_metric_eq_map, List.map_map, List.map_map]
     rfl)

/-- Characterization of the Composer's guaranteed behaviour: it starts from
the progressive table's identity and composite-score columns, inner-joins the
pressing then the playmaker table on `Player` (a player in all three scored
tables appears; every output row's identity columns and scores come from
matching rows of the three tables), re-normalizes the three composite scores
over the joined population, weighs them 0.40/0.30/0.30, and sorts descending
by the final composite (a permutation of the enriched joined table; nothing
is asserted about the order of tied scores, see `sortValuesDesc`). -/
theorem complete_midfielders_spec (passing : List PassRow) (possession : List PossRow)
    (defensive : List DefRow) :
    (∀ r ∈ find_complete_midfielders passing possession defensive,
      (∃ p ∈ analyze_progressive_midfielders possession,
        p.base.player = r.base.player ∧ p.base.squad = r.base.squad ∧
        p.base.age = r.base.age ∧ p.base.pos = r.base.pos ∧
        p.progressionScore = r.base.progressionScore) ∧
      (∃ d ∈ identify_pressing_midfielders defensive,
        d.base.player = r.base.player ∧ d.pressingScore = r.base.pressingScore) ∧
      (∃ m ∈ identify_playmakers passing,
        m.base.player = r.base.player ∧ m.playmakerScore = r.base.playmakerScore)) ∧
    (∀ x : String,
      (∃ p ∈ analyze_progressive_midfielders possession, p.base.player = x) →
      (∃ d ∈ identify_pressing_midfielders defensive, d.base.player = x) →
      (∃ m ∈ identify_playmakers passing, m.base.player = x) →
      ∃ r ∈ find_complete_midfielders passing possession defensive, r.base.player = x) ∧
    ((completeEnrich (composerJoined (analyze_progressive_midfielders possession)
          (identify_pressing_midfielders defensive) (identify_playmakers passing))).map
        (fun r => r.progressionScoreNorm) =
      normalize_metric ((composerJoined (analyze_progressive_midfielders possession)
          (identify_pressing_midfielders defensive) (identify_playmakers passing)).map
        (fun a => a.progressionScore)) ∧
      (completeEnrich (composerJoined (analyze_progressive_midfielders possession)
          (identify_pressing_midfielders defensive) (identify_playmakers passing))).map
        (fun r => r.pressingScoreNorm) =
      normalize_metric ((composerJoined (analyze_progressive_midfielders possession)
          (identify_pressing_midfielders defensive) (identify_playmakers passing)).map
        (fun a => a.pressingScore)) ∧
      (completeEnrich (composerJoined (analyze_progressive_midfielders possession)
          (identify_pressing_midfielders defensive) (identify_playmakers passing))).map
        (fun r => r.playmakerScoreNorm) =
      normalize_metric ((composerJoined (analyze_progressive_midfielders possession)
          (identify_pressing_midfielders defensive) (identify_playmakers passing)).map
        (fun a => a.playmakerScore))) ∧
    (∀ r ∈ find_complete_midfielders passing possession defensive,
      r.completeMidfielderScore =
        r.progressionScoreNorm * (40 / 100) + r.pressingScoreNorm * (30 / 100) +
          r.playmakerScoreNorm * (30 / 100)) ∧
    ((find_complete_midfielders passing possession defensive).Sorted
        (scoreGE (fun r => r.completeMidfielderScore)) ∧
      (find_complete_midfielders passing possession defensive).Perm
        (completeEnrich (composerJoined (analyze_progressive_midfielders possession)
          (identify_pressing_midfielders defensive) (identify_playmakers passing)))) := by
  refine ⟨?_, ?_, completeEnrich_norm_columns _, ?_, sortValuesDesc_sorted _ _,
    sortValuesDesc_perm _ _⟩
  · intro r hr
    have hr2 : r ∈ completeEnrich (composerJoined (analyze_progressive_midfielders possession)
        (identify_pressing_midfielders defensive) (identify_playmakers passing)) :=
      (mem_sortValuesDesc _ _ r).mp hr
    obtain ⟨j, hj, rfl⟩ := List.mem_map.mp hr2
    obtain ⟨p, hp, d, hd, m, hm, hdeq, hmeq, rfl⟩ := (mem_composerJoined _ _ _ j).mp hj
    exact ⟨⟨p, hp, rfl, rfl, rfl, rfl, rfl⟩, ⟨d, hd, hdeq, rfl⟩, ⟨m, hm, hmeq, rfl⟩⟩
  · intro x hp hd hm
    obtain ⟨p, hp, hpx⟩ := hp
    obtain ⟨d, hd, hdx⟩ := hd
    obtain ⟨m, hm, hmx⟩ := hm
    have hj := (mem_composerJoined (analyze_progressive_midfielders possession)
        (identify_pressing_midfielders defensive) (identify_playmakers passing)
        { player := p.base.player, squad := p.base.squad, age := p.base.age,
          pos := p.base.pos, progressionScore := p.progressionScore,
          pressingScore := d.pressingScore, playmakerScore := m.playmakerScore }).mpr
      ⟨p, hp, d, hd, m, hm, by rw [hdx, hpx], by rw [hmx, hpx], rfl⟩
    refine ⟨mkCompleteRow _ _,
      (mem_sortValuesDesc _ _ _).mpr (List.mem_map.mpr ⟨_, hj, rfl⟩), ?_⟩
    exact hpx
  · intro r hr
    have hr2 : r ∈ completeEnrich (composerJoined (analyze_progressive_midfielders possession)
        (identify_pressing_midfielders defensive) (identify_playmakers passing)) :=
      (mem_sortValuesDesc _ _ r).mp hr
    obtain ⟨j, hj, rfl⟩ := List.mem_map.mp hr2
    rfl

/-- Demo passing table: the single player "A". -/
def demoPass : List PassRow :=
  [{ player := "A", n90s := 10, prgP := 20, kp := 15, ast := 5, totalCmpPct := 80 }]

/-- Demo possession table: the single player "A". -/
def demoPoss : List PossRow :=
  [{ player := "A", squad := "S", age := 25, pos := "MF", n90s := 10,
     prgDist := 100, prgC := 30, oneThird := 12, prgR := 25 }]

/-- Demo defensive table: the single player "A". -/
def demoDef : List DefRow :=
  [{ player := "A", pos := "MF", n90s := 10, tkl := 30, ints := 20,
     att3rd := 40, tklPct := 60 }]

theorem complete_midfielders_spec_witness :
    ∃ r ∈ find_complete_midfielders demoPass demoPoss demoDef,
      r.base.player = "A" ∧
      r.completeMidfielderScore =
        r.progressionScoreNorm * (40 / 100) + r.pressingScoreNorm * (30 / 100) +
          r.playmakerScoreNorm * (30 / 100) := by
  have h := complete_midfielders_spec demoPass demoPoss demoDef
  obtain ⟨r, hr, hx⟩ := h.2.1 "A" (by with_unfolding_all decide)
    (by with_unfolding_all decide) (by with_unfolding_all decide)
  exact ⟨r, hr, hx, h.2.2.2.1 r hr⟩

theorem length_filter_key_eq_zero {α : Type} (key : α → String) (l : List α) (x : String)
    (hx : x ∉ l.map key) :
    (l.filter (fun a => decide (key a = x))).length = 0 := by
  rw [List.length_eq_zero, List.filter_eq_nil_iff]
  intro a ha
  simp only [decide_eq_true_eq]
  intro hk
  exact hx (List.mem_map.mpr ⟨a, ha, hk⟩)

theorem length_filter_key {α : Type} (key : α → String) (l : List α)
    (hl : (l.map key).Nodup) (x : String) :
    (l.filter (fun a => decide (key a = x))).length =
      if x ∈ l.map key then 1 else 0 := by
  induction l with
  | nil => simp
  | cons a t ih =>
      simp only [List.map_cons, List.nodup_cons] at hl
      obtain ⟨hna, hnt⟩ := hl
      by_cases hk : key a = x
      · rw [List.filter_cons_of_pos (by simp [hk])]
        have h0 : (t.filter (fun b => decide (key b = x))).length = 0 :=
          length_filter_key_eq_zero key t x (hk ▸ hna)
        simp [h0, hk]
      · rw [List.filter_cons_of_neg (by simp [hk])]
        rw [ih hnt]
        by_cases hx : x ∈ t.map key
        · rw [if_pos hx, if_pos (by simp only [List.map_cons, List.mem_cons]; exact Or.inr hx)]
        · rw [if_neg hx, if_neg (by
            simp only [List.map_cons, List.mem_cons]
            rintro (h | h)
            · exact hk h.symm
            · exact hx h)]

theorem length_flatMap_map {α β γ : Type} (l1 : List α) (l2 : List β) (f : α → β → γ) :
    (l1.flatMap (fun d => l2.map (f d))).length = l1.length * l2.length := by
  induction l1 with
  | nil => simp
  | cons a t ih =>
      rw [List.flatMap_cons, List.length_append, List.length_map, ih, List.length_cons]
      ring

theorem composerJoined_length (prog : List ProgRow) (press : List PressRow)
    (play : List PlaymakerRow)
    (hpress : (press.map (fun d => d.base.player)).Nodup)
    (hplay : (play.map (fun m => m.base.player)).Nodup) :
    (composerJoined prog press play).length =
      (prog.filter (fun p =>
        decide (p.base.player ∈ press.map (fun d => d.base.player)) &&
          decide (p.base.player ∈ play.map (fun m => m.base.player)))).length := by
  induction prog with
  | nil => rfl
  | cons p t ih =>
      have hstep : composerJoined (p :: t) press play =
          ((press.filter (fun d => decide (d.base.player = p.base.player))).flatMap (fun d =>
            (play.filter (fun m => decide (m.base.player = p.base.player))).map (fun m =>
              ({ player := p.base.player, squad := p.base.squad, age := p.base.age,
                 pos := p.base.pos, progressionScore := p.progressionScore,
                 pressingScore := d.pressingScore,
                 playmakerScore := m.playmakerScore } : JoinedRow)))) ++
            composerJoined t press play := by
        unfold composerJoined
        rw [List.flatMap_cons]
      rw [hstep, List.length_append]
      have hblock :
          ((press.filter (fun d => decide (d.base.player = p.base.player))).flatMap (fun d =>
            (play.filter (fun m => decide (m.base.player = p.base.player))).map (fun m =>
              ({ player := p.base.player, squad := p.base.squad, age := p.base.age,
                 pos := p.base.pos, progressionScore := p.progressionScore,
                 pressingScore := d.pressingScore,
                 playmakerScore := m.playmakerScore } : JoinedRow)))).length =
            (if p.base.player ∈ press.map (fun d => d.base.player) then 1 else 0) *
              (if p.base.player ∈ play.map (fun m => m.base.player) then 1 else 0) := by
        rw [length_flatMap_map]
        rw [length_filter_key (fun d : PressRow => d.base.player) press hpress p.base.player]
        rw [length_filter_key (fun m : PlaymakerRow => m.base.player) play hplay p.base.player]
      rw [hblock, ih, List.filter_cons]
      by_cases hA : p.base.player ∈ press.map (fun d => d.base.player) <;>
        by_cases hB : p.base.player ∈ play.map (fun m => m.base.player)
      · rw [if_pos hA, if_pos hB, if_pos (by simp [hA, hB]), List.length_cons]
        omega
      · rw [if_pos hA, if_neg hB, if_neg (by simp [hA, hB])]
        omega
      · rw [if_neg hA, if_pos hB, if_neg (by simp [hA, hB])]
        omega
      · rw [if_neg hA, if_neg hB, if_neg (by simp [hA, hB])]
        omega

theorem find_complete_length (passing : List PassRow) (possession : List PossRow)
    (defensive : List DefRow) :
    (find_complete_midfielders passing possession defensive).length =
      (composerJoined (analyze_progressive_midfielders possession)
        (identify_pressing_midfielders defensive) (identify_playmakers passing)).length := by
  unfold find_complete_midfielders
  rw [(sortValuesDesc_perm _ _).length_eq]
  unfold completeEnrich
  rw [List.length_map]

/-- Duplicate-key table for the join fan-out: one player "A" in the passing
and possession tables, but two "A" rows in the defensive table. -/
def cxPass : List PassRow :=
  [{ player := "A", n90s := 8, prgP := 16, kp := 12, ast := 4, totalCmpPct := 75 }]

def cxPoss : List PossRow :=
  [{ player := "A", squad := "T", age := 24, pos := "MF", n90s := 8,
     prgDist := 90, prgC := 28, oneThird := 10, prgR := 20 }]

def cxDef : List DefRow :=
  [{ player := "A", pos := "MF", n90s := 8, tkl := 25, ints := 15,
     att3rd := 30, tklPct := 55 },
   { player := "A", pos := "MF,FW", n90s := 6, tkl := 18, ints := 12,
     att3rd := 22, tklPct := 50 }]

/-- C7 counterexample: with a duplicated `Player` key in the defensive table
the inner joins fan out, and the Composer's output has 2 rows while the
minimum of the three scored tables' row counts is 1 — the claimed bound
`output ≤ min` is false as stated for arbitrary scored tables. -/
theorem composer_fanout_counterexample :
    (analyze_progressive_midfielders cxPoss).length = 1 ∧
    (identify_pressing_midfielders cxDef).length = 2 ∧
    (identify_playmakers cxPass).length = 1 ∧
    (find_complete_midfielders cxPass cxPoss cxDef).length = 2 ∧
    ¬ ((find_complete_midfielders cxPass cxPoss cxDef).length ≤
        min (min (analyze_progressive_midfielders cxPoss).length
          (identify_pressing_midfielders cxDef).length)
          (identify_playmakers cxPass).length) := by
  with_unfolding_all decide

/-- C7 amended: provided `Player` is duplicate-free in each of the three
scored tables, the Composer's output row count is at most the minimum of the
three row counts, with equality when the three `Player` sets coincide. -/
theorem composer_count_bounds (passing : List PassRow) (possession : List PossRow)
    (defensive : List DefRow)
    (h1 : ((analyze_progressive_midfielders possession).map (fun r => r.base.player)).Nodup)
    (h2 : ((identify_pressing_midfielders defensive).map (fun r => r.base.player)).Nodup)
    (h3 : ((identify_playmakers passing).map (fun r => r.base.player)).Nodup) :
    (find_complete_midfielders passing possession defensive).length ≤
      min (min (analyze_progressive_midfielders possession).length
        (identify_pressing_midfielders defensive).length)
        (identify_playmakers passing).length ∧
    ((∀ x : String,
        x ∈ (analyze_progressive_midfielders possession).map (fun r => r.base.player) ↔
          x ∈ (identify_pressing_midfielders defensive).map (fun r => r.base.player)) →
      (∀ x : String,
        x ∈ (analyze_progressive_midfielders possession).map (fun r => r.base.player) ↔
          x ∈ (identify_playmakers passing).map (fun r => r.base.player)) →
      (find_complete_midfielders passing possession defensive).length =
        min (min (analyze_progressive_midfielders possession).length
          (identify_pressing_midfielders defensive).length)
          (identify_playmakers passing).length) := by
  have hlen : (find_complete_midfielders passing possession defensive).length =
      ((analyze_progressive_midfielders possession).filter (fun p =>
        decide (p.base.player ∈ (identify_pressing_midfielders defensive).map
          (fun d => d.base.player)) &&
        decide (p.base.player ∈ (identify_playmakers passing).map
          (fun m => m.base.player)))).length := by
    rw [find_complete_length, composerJoined_length _ _ _ h2 h3]
  have hsubD : (((analyze_progressive_midfielders possession).filter (fun p =>
      decide (p.base.player ∈ (identify_pressing_midfielders defensive).map
        (fun d => d.base.player)) &&
      decide (p.base.player ∈ (identify_playmakers passing).map
        (fun m => m.base.player)))).map (fun r => r.base.player)) ⊆
      (identify_pressing_midfielders defensive).map (fun d => d.base.player) := by
    intro y hy
    obtain ⟨p, hpF, rfl⟩ := List.mem_map.mp hy
    obtain ⟨hpP, hq⟩ := List.mem_filter.mp hpF
    obtain ⟨hqD, hqM⟩ := Bool.and_eq_true_iff.mp hq
    exact of_decide_eq_true hqD
  have hsubM : (((analyze_progressive_midfielders possession).filter (fun p =>
      decide (p.base.player ∈ (identify_pressing_midfielders defensive).map
        (fun d => d.base.player)) &&
      decide (p.base.player ∈ (identify_playmakers passing).map
        (fun m => m.base.player)))).map (fun r => r.base.player)) ⊆
      (identify_playmakers passing).map (fun m => m.base.player) := by
    intro y hy
    obtain ⟨p, hpF, rfl⟩ := List.mem_map.mp hy
    obtain ⟨hpP, hq⟩ := List.mem_filter.mp hpF
    obtain ⟨hqD, hqM⟩ := Bool.and_eq_true_iff.mp hq
    exact of_decide_eq_true hqM
  have hndF : (((analyze_progressive_midfielders possession).filter (fun p =>
      decide (p.base.player ∈ (identify_pressing_midfielders defensive).map
        (fun d => d.base.player)) &&
      decide (p.base.player ∈ (identify_playmakers passing).map
        (fun m => m.base.player)))).map (fun r => r.base.player)).Nodup :=
    ((List.filter_sublist _).map (fun r : ProgRow => r.base.player)).nodup h1
  have hboundP : ((analyze_progressive_midfielders possession).filter (fun p =>
      decide (p.base.player ∈ (identify_pressing_midfielders defensive).map
        (fun d => d.base.player)) &&
      decide (p.base.player ∈ (identify_playmakers passing).map
        (fun m => m.base.player)))).length ≤
      (analyze_progressive_midfielders possession).length :=
    List.length_filter_le _ _
  have hboundD : ((analyze_progressive_midfielders possession).filter (fun p =>
      decide (p.base.player ∈ (identify_pressing_midfielders defensive).map
        (fun d => d.base.player)) &&
      decide (p.base.player ∈ (identify_playmakers passing).map
        (fun m => m.base.player)))).length ≤
      (identify_pressing_midfielders defensive).length := by
    have := (List.subperm_of_subset hndF hsubD).length_le
    rw [List.length_map, List.length_map] at this
    exact this
  have hboundM : ((analyze_progressive_midfielders possession).filter (fun p =>
      decide (p.base.player ∈ (identify_pressing_midfielders defensive).map
        (fun d => d.base.player)) &&
      decide (p.base.player ∈ (identify_playmakers passing).map
        (fun m => m.base.player)))).length ≤
      (identify_playmakers passing).length := by
    have := (List.subperm_of_subset hndF hsubM).length_le
    rw [List.length_map, List.length_map] at this
    exact this
  constructor
  · rw [hlen]
    exact le_min (le_min hboundP hboundD) hboundM
  · intro hPD hPM
    have hfull : (analyze_progressive_midfielders possession).filter (fun p =>
        decide (p.base.player ∈ (identify_pressing_midfielders defensive).map
          (fun d => d.base.player)) &&
        decide (p.base.player ∈ (identify_playmakers passing).map
          (fun m => m.base.player))) =
        analyze_progressive_midfielders possession := by
      rw [List.filter_eq_self]
      intro p hp
      have hx : p.base.player ∈ (analyze_progressive_midfielders possession).map
          (fun r => r.base.player) := List.mem_map.mpr ⟨p, hp, rfl⟩
      rw [Bool.and_eq_true_iff]
      exact ⟨decide_eq_true ((hPD _).mp hx), decide_eq_true ((hPM _).mp hx)⟩
    have hPDlen : (analyze_progressive_midfielders possession).length =
        (identify_pressing_midfielders defensive).length := by
      have hfs : ((analyze_progressive_midfielders possession).map
          (fun r => r.base.player)).toFinset =
          ((identify_pressing_midfielders defensive).map
            (fun r => r.base.player)).toFinset := by
        apply Finset.ext
        intro x
        rw [List.mem_toFinset, List.mem_toFinset]
        exact hPD x
      have hc := congrArg Finset.card hfs
      rw [List.toFinset_card_of_nodup h1, List.toFinset_card_of_nodup h2,
        List.length_map, List.length_map] at hc
      exact hc
    have hPMlen : (analyze_progressive_midfielders possession).length =
        (identify_playmakers passing).length := by
      have hfs : ((analyze_progressive_midfielders possession).map
          (fun r => r.base.player)).toFinset =
          ((identify_playmakers passing).map (fun r => r.base.player)).toFinset := by
        apply Finset.ext
        intro x
        rw [List.mem_toFinset, List.mem_toFinset]
        exact hPM x
      have hc := congrArg Finset.card hfs
      rw [List.toFinset_card_of_nodup h1, List.toFinset_card_of_nodup h3,
        List.length_map, List.length_map] at hc
      exact hc
    rw [hlen, hfull, ← hPDlen, ← hPMlen, min_self, min_self]

/-- Scenario passing table with players {B, C, D}. -/
def scnPass : List PassRow :=
  [{ player := "B", n90s := 10, prgP := 18, kp := 10, ast := 3, totalCmpPct := 82 },
   { player := "C", n90s := 12, prgP := 22, kp := 14, ast := 6, totalCmpPct := 79 },
   { player := "D", n90s := 9, prgP := 15, kp := 8, ast := 2, totalCmpPct := 84 }]

/-- Scenario possession table with players {A, B, C}. -/
def scnPoss : List PossRow :=
  [{ player := "A", squad := "S1", age := 24, pos := "MF", n90s := 10,
     prgDist := 95, prgC := 25, oneThird := 11, prgR := 22 },
   { player := "B", squad := "S2", age := 27, pos := "MF,FW", n90s := 10,
     prgDist := 80, prgC := 31, oneThird := 9, prgR := 18 },
   { player := "C", squad := "S3", age := 22, pos := "MF", n90s := 12,
     prgDist := 110, prgC := 27, oneThird := 14, prgR := 30 }]

/-- Scenario defensive table with players {A, B, C}. -/
def scnDef : List DefRow :=
  [{ player := "A", pos := "MF", n90s := 10, tkl := 28, ints := 17,
     att3rd := 35, tklPct := 58 },
   { player := "B", pos := "MF,FW", n90s := 10, tkl := 22, ints := 14,
     att3rd := 28, tklPct := 52 },
   { player := "C", pos := "MF", n90s := 12, tkl := 33, ints := 21,
     att3rd := 41, tklPct := 61 }]

theorem composer_count_bounds_witness :
    (find_complete_midfielders scnPass scnPoss scnDef).length ≤
      min (min (analyze_progressive_midfielders scnPoss).length
        (identify_pressing_midfielders scnDef).length)
        (identify_playmakers scnPass).length ∧
    ((find_complete_midfielders scnPass scnPoss scnDef).map (fun r => r.base.player)).Perm
      ["B", "C"] :=
  ⟨(composer_count_bounds scnPass scnPoss scnDef (by with_unfolding_all decide)
      (by with_unfolding_all decide) (by with_unfolding_all decide)).1,
   by with_unfolding_all decide⟩

/-- 17-row passing table for the tie-break failing input: players "P02" and
"P03" have identical stat columns (value 18) and therefore equal composite
score; the other 15 rows are pairwise distinct; 17 rows exceed numpy
introsort's 16-element insertion-sort cutoff. -/
def tiePass : List PassRow :=
  [{ player := "P01", n90s := 1, prgP := 19, kp := 19, ast := 19, totalCmpPct := 19 },
   { player := "P02", n90s := 1, prgP := 18, kp := 18, ast := 18, totalCmpPct := 18 },
   { player := "P03", n90s := 1, prgP := 18, kp := 18, ast := 18, totalCmpPct := 18 },
   { player := "P04", n90s := 1, prgP := 16, kp := 16, ast := 16, totalCmpPct := 16 },
   { player := "P05", n90s := 1, prgP := 15, kp := 15, ast := 15, totalCmpPct := 15 },
   { player := "P06", n90s := 1, prgP := 14, kp := 14, ast := 14, totalCmpPct := 14 },
   { player := "P07", n90s := 1, prgP := 13, kp := 13, ast := 13, totalCmpPct := 13 },
   { player := "P08", n90s := 1, prgP := 12, kp := 12, ast := 12, totalCmpPct := 12 },
   { player := "P09", n90s := 1, prgP := 11, kp := 11, ast := 11, totalCmpPct := 11 },
   { player := "P10", n90s := 1, prgP := 10, kp := 10, ast := 10, totalCmpPct := 10 },
   { player := "P11", n90s := 1, prgP := 9, kp := 9, ast := 9, totalCmpPct := 9 },
   { player := "P12", n90s := 1, prgP := 8, kp := 8, ast := 8, totalCmpPct := 8 },
   { player := "P13", n90s := 1, prgP := 7, kp := 7, ast := 7, totalCmpPct := 7 },
   { player := "P14", n90s := 1, prgP := 6, kp := 6, ast := 6, totalCmpPct := 6 },
   { player := "P15", n90s := 1, prgP := 5, kp := 5, ast := 5, totalCmpPct := 5 },
   { player := "P16", n90s := 1, prgP := 4, kp := 4, ast := 4, totalCmpPct := 4 },
   { player := "P17", n90s := 1, prgP := 3, kp := 3, ast := 3, totalCmpPct := 3 }]

/-- 17-row possession table with the same players and the same tied pair. -/
def tiePoss : List PossRow :=
  [{ player := "P01", squad := "S", age := 25, pos := "MF", n90s := 1,
     prgDist := 19, prgC := 19, oneThird := 19, prgR := 19 },
   { player := "P02", squad := "S", age := 25, pos := "MF", n90s := 1,
     prgDist := 18, prgC := 18, oneThird := 18, prgR := 18 },
   { player := "P03", squad := "S", age := 25, pos := "MF", n90s := 1,
     prgDist := 18, prgC := 18, oneThird := 18, prgR := 18 },
   { player := "P04", squad := "S", age := 25, pos := "MF", n90s := 1,
     prgDist := 16, prgC := 16, oneThird := 16, prgR := 16 },
   { player := "P05", squad := "S", age := 25, pos := "MF", n90s := 1,
     prgDist := 15, prgC := 15, oneThird := 15, prgR := 15 },
   { player := "P06", squad := "S", age := 25, pos := "MF", n90s := 1,
     prgDist := 14, prgC := 14, oneThird := 14, prgR := 14 },
   { player := "P07", squad := "S", age := 25, pos := "MF", n90s := 1,
     prgDist := 13, prgC := 13, oneThird := 13, prgR := 13 },
   { player := "P08", squad := "S", age := 25, pos := "MF", n90s := 1,
     prgDist := 12, prgC := 12, oneThird := 12, prgR := 12 },
   { player := "P09", squad := "S", age := 25, pos := "MF", n90s := 1,
     prgDist := 11, prgC := 11, oneThird := 11, prgR := 11 },
   { player := "P10", squad := "S", age := 25, pos := "MF", n90s := 1,
     prgDist := 10, prgC := 10, oneThird := 10, prgR := 10 },
   { player := "P11", squad := "S", age := 25, pos := "MF", n90s := 1,
     prgDist := 9, prgC := 9, oneThird := 9, prgR := 9 },
   { player := "P12", squad := "S", age := 25, pos := "MF", n90s := 1,
     prgDist := 8, prgC := 8, oneThird := 8, prgR := 8 },
   { player := "P13", squad := "S", age := 25, pos := "MF", n90s := 1,
     prgDist := 7, prgC := 7, oneThird := 7, prgR := 7 },
   { player := "P14", squad := "S", age := 25, pos := "MF", n90s := 1,
     prgDist := 6, prgC := 6, oneThird := 6, prgR := 6 },
   { player := "P15", squad := "S", age := 25, pos := "MF", n90s := 1,
     prgDist := 5, prgC := 5, oneThird := 5, prgR := 5 },
   { player := "P16", squad := "S", age := 25, pos := "MF", n90s := 1,
     prgDist := 4, prgC := 4, oneThird := 4, prgR := 4 },
   { player := "P17", squad := "S", age := 25, pos := "MF", n90s := 1,
     prgDist := 3, prgC := 3, oneThird := 3, prgR := 3 }]

/-- 17-row defensive table with the same players and the same tied pair. -/
def tieDef : List DefRow :=
  [{ player := "P01", pos := "MF", n90s := 1, tkl := 19, ints := 19,
     att3rd := 19, tklPct := 19 },
   { player := "P02", pos := "MF", n90s := 1, tkl := 18, ints := 18,
     att3rd := 18, tklPct := 18 },
   { player := "P03", pos := "MF", n90s := 1, tkl := 18, ints := 18,
     att3rd := 18, tklPct := 18 },
   { player := "P04", pos := "MF", n90s := 1, tkl := 16, ints := 16,
     att3rd := 16, tklPct := 16 },
   { player := "P05", pos := "MF", n90s := 1, tkl := 15, ints := 15,
     att3rd := 15, tklPct := 15 },
   { player := "P06", pos := "MF", n90s := 1, tkl := 14, ints := 14,
     att3rd := 14, tklPct := 14 },
   { player := "P07", pos := "MF", n90s := 1, tkl := 13, ints := 13,
     att3rd := 13, tklPct := 13 },
   { player := "P08", pos := "MF", n90s := 1, tkl := 12, ints := 12,
     att3rd := 12, tklPct := 12 },
   { player := "P09", pos := "MF", n90s := 1, tkl := 11, ints := 11,
     att3rd := 11, tklPct := 11 },
   { player := "P10", pos := "MF", n90s := 1, tkl := 10, ints := 10,
     att3rd := 10, tklPct := 10 },
   { player := "P11", pos := "MF", n90s := 1, tkl := 9, ints := 9,
     att3rd := 9, tklPct := 9 },
   { player := "P12", pos := "MF", n90s := 1, tkl := 8, ints := 8,
     att3rd := 8, tklPct := 8 },
   { player := "P13", pos := "MF", n90s := 1, tkl := 7, ints := 7,
     att3rd := 7, tklPct := 7 },
   { player := "P14", pos := "MF", n90s := 1, tkl := 6, ints := 6,
     att3rd := 6, tklPct := 6 },
   { player := "P15", pos := "MF", n90s := 1, tkl := 5, ints := 5,
     att3rd := 5, tklPct := 5 },
   { player := "P16", pos := "MF", n90s := 1, tkl := 4, ints := 4,
     att3rd := 4, tklPct := 4 },
   { player := "P17", pos := "MF", n90s := 1, tkl := 3, ints := 3,
     att3rd := 3, tklPct := 3 }]

/-- C8 failing input, evaluated in the model: the 17 enriched playmaker rows
are pairwise distinct, yet their `playmaker_score` column has a duplicate
(players "P02" and "P03" tie).  The source sorts this table with
`sort_values("playmaker_score", ascending=False)` under the default
`kind='quicksort'`, for which pandas documents no stability guarantee and
whose partitioning engages past the 16-element insertion-sort cutoff — so the
program does not guarantee the tied pair keeps its input order, as the claim
requires. -/
theorem playmaker_tied_pair_failing_input :
    tiePass.length = 17 ∧
    (playmakerEnrich tiePass).Nodup ∧
    ¬ ((playmakerEnrich tiePass).map (fun r => r.playmakerScore)).Nodup := by
  with_unfolding_all decide

/-- C2 failing input, evaluated in the model: joining the three 17-player
scored tables yields 17 pairwise-distinct enriched rows whose
`complete_midfielder_score` column has a duplicate (players "P02" and "P03"
tie).  The Composer sorts this joined table with the default-quicksort
`sort_values`, so the claimed stable tie-break is not guaranteed by the
program. -/
theorem composer_tied_pair_failing_input :
    (composerJoined (analyze_progressive_midfielders tiePoss)
      (identify_pressing_midfielders tieDef) (identify_playmakers tiePass)).length = 17 ∧
    (completeEnrich (composerJoined (analyze_progressive_midfielders tiePoss)
      (identify_pressing_midfielders tieDef) (identify_playmakers tiePass))).Nodup ∧
    ¬ ((completeEnrich (composerJoined (analyze_progressive_midfielders tiePoss)
      (identify_pressing_midfielders tieDef) (identify_playmakers tiePass))).map
        (fun r => r.completeMidfielderScore)).Nodup := by
  with_unfolding_all decide
